import Mathlib

/-!
Shallow embedding of `src/codec.rs` from foxglove/mp42mcap.

Byte buffers are `List Nat` (each element a byte value); `u64` state is a
`Nat` with wrap-around written explicitly as `% 2^64` where the source's
arithmetic can overflow. Fallible operations return `Except String`.
Mutating methods of `VideoConverter` are state-passing functions returning
the result together with the new state; on the error path the state is
returned unchanged, matching the source where the mutation is never reached.
-/

/-- The codec profile: `CodecType` in the source. -/
inductive CodecType where
  | H264
  | H265
deriving DecidableEq, Repr

def H264_NAL_SPS : Nat := 0x7
def H264_NAL_PPS : Nat := 0x8
def H264_NAL_SEI : Nat := 0x6

def H265_NAL_VPS : Nat := 32
def H265_NAL_SPS : Nat := 33
def H265_NAL_PPS : Nat := 34
def H265_NAL_SEI : Nat := 39

/-- `CodecType::encoder_lib`. -/
def CodecType.encoder_lib : CodecType → String
  | .H264 => "libx264"
  | .H265 => "libx265"

/-- `CodecType::should_skip_nal`. -/
def CodecType.should_skip_nal (c : CodecType) (nal_type : Nat) : Bool :=
  match c with
  | .H264 =>
      nal_type == H264_NAL_SPS || nal_type == H264_NAL_PPS || nal_type == H264_NAL_SEI
  | .H265 =>
      nal_type == H265_NAL_VPS || nal_type == H265_NAL_SPS ||
        nal_type == H265_NAL_PPS || nal_type == H265_NAL_SEI

/-- `ParameterSets`: the three parameter-set buffers. -/
structure ParameterSets where
  vps : List Nat
  sps : List Nat
  pps : List Nat
deriving DecidableEq, Repr

def AVCC_HEADER_SIZE : Nat := 5
def HVCC_HEADER_SIZE : Nat := 22

/-- One `for _ in 0..count` loop of `ParameterSets::parse_avcc`: reads `count`
entries of shape `{2-byte big-endian length, payload}` starting at `offset`,
appending a 4-byte start code plus the payload to `acc`. An out-of-bounds
length read fails with `eLen`, a payload overrun with `eTrunc` (`&0x1F` and
big-endian recomposition written arithmetically, as the values are bytes). -/
def avccEntries (d : List Nat) (eLen eTrunc : String) :
    Nat → Nat → List Nat → Except String (Nat × List Nat)
  | 0, offset, acc => .ok (offset, acc)
  | n + 1, offset, acc =>
    if offset + 2 > d.length then
      .error eLen
    else
      let size := d.getD offset 0 * 256 + d.getD (offset + 1) 0
      if offset + 2 + size > d.length then
        .error eTrunc
      else
        avccEntries d eLen eTrunc n (offset + 2 + size)
          (acc ++ [0, 0, 0, 1] ++ (d.drop (offset + 2)).take size)

/-- `ParameterSets::parse_avcc`. -/
def parse_avcc (d : List Nat) : Except String ParameterSets :=
  if d.length < AVCC_HEADER_SIZE + 2 then
    .error "AVCC header too short"
  else
    let num_sps := d.getD AVCC_HEADER_SIZE 0 % 32
    match avccEntries d "Invalid SPS length" "SPS data truncated" num_sps
        (AVCC_HEADER_SIZE + 1) [] with
    | .error e => .error e
    | .ok (offset, sps_nals) =>
      if offset ≥ d.length then
        .error "Missing PPS"
      else
        let num_pps := d.getD offset 0
        match avccEntries d "Invalid PPS length" "PPS data truncated" num_pps
            (offset + 1) [] with
        | .error e => .error e
        | .ok (_, pps_nals) =>
          if sps_nals.isEmpty || pps_nals.isEmpty then
            .error "Missing required parameter sets"
          else
            .ok ⟨[], sps_nals, pps_nals⟩

/-- The inner `for _ in 0..num_nals` loop of `ParameterSets::parse_hvcc`:
`{2-byte big-endian length, payload}` entries routed to vps/sps/pps by
`nal_type`; an out-of-bounds read breaks out, returning what was accumulated
(the source advances `offset` by 2 before the payload bound check, so the
second break leaves `offset + 2`). -/
def hvccInner (d : List Nat) (nal_type : Nat) :
    Nat → Nat → List Nat → List Nat → List Nat → Nat × List Nat × List Nat × List Nat
  | 0, offset, vps, sps, pps => (offset, vps, sps, pps)
  | n + 1, offset, vps, sps, pps =>
    if offset + 2 > d.length then
      (offset, vps, sps, pps)
    else
      let size := d.getD offset 0 * 256 + d.getD (offset + 1) 0
      if offset + 2 + size > d.length then
        (offset + 2, vps, sps, pps)
      else
        let payload := [0, 0, 0, 1] ++ (d.drop (offset + 2)).take size
        if nal_type = 32 then
          hvccInner d nal_type n (offset + 2 + size) (vps ++ payload) sps pps
        else if nal_type = 33 then
          hvccInner d nal_type n (offset + 2 + size) vps (sps ++ payload) pps
        else if nal_type = 34 then
          hvccInner d nal_type n (offset + 2 + size) vps sps (pps ++ payload)
        else
          hvccInner d nal_type n (offset + 2 + size) vps sps pps

/-- The outer `for _ in 0..num_arrays` loop of `ParameterSets::parse_hvcc`:
a 1-byte array header (low 6 bits the NAL type) and a 2-byte big-endian entry
count, then the entries; a truncated array header breaks out. -/
def hvccArrays (d : List Nat) :
    Nat → Nat → List Nat → List Nat → List Nat → List Nat × List Nat × List Nat
  | 0, _, vps, sps, pps => (vps, sps, pps)
  | n + 1, offset, vps, sps, pps =>
    if offset + 3 > d.length then
      (vps, sps, pps)
    else
      let nal_type := d.getD offset 0 % 64
      let num_nals := d.getD (offset + 1) 0 * 256 + d.getD (offset + 2) 0
      let r := hvccInner d nal_type num_nals (offset + 3) vps sps pps
      hvccArrays d n r.1 r.2.1 r.2.2.1 r.2.2.2

/-- `ParameterSets::parse_hvcc`. -/
def parse_hvcc (d : List Nat) : Except String ParameterSets :=
  if d.length < HVCC_HEADER_SIZE + 1 then
    .error "HVCC header too short"
  else
    let r := hvccArrays d (d.getD HVCC_HEADER_SIZE 0) (HVCC_HEADER_SIZE + 1) [] [] []
    if r.2.1.isEmpty || r.2.2.isEmpty then
      .error "Missing required HEVC parameter sets"
    else
      .ok ⟨r.1, r.2.1, r.2.2⟩

/-- `ParameterSets::parse`. -/
def ParameterSets.parse (extradata : List Nat) (codec : CodecType) :
    Except String ParameterSets :=
  match codec with
  | .H264 => parse_avcc extradata
  | .H265 => parse_hvcc extradata

/-- `ParameterSets::write_to`, as the byte sequence appended to the buffer. -/
def ParameterSets.write_to (ps : ParameterSets) (codec : CodecType) : List Nat :=
  (if codec = CodecType.H265 then ps.vps else []) ++ ps.sps ++ ps.pps

/-- `ParameterSets::validate`. -/
def ParameterSets.validate (ps : ParameterSets) (codec : CodecType) :
    Except String Unit :=
  if ps.sps.isEmpty || ps.pps.isEmpty then
    .error "Missing required parameter sets"
  else if codec = CodecType.H265 ∧ ps.vps.isEmpty then
    .error "Missing required VPS for H.265"
  else
    .ok ()

/-- `u32::from_be_bytes` of the 4 bytes at `pos` (bytes, so the shifts are
multiplications). -/
def readU32 (d : List Nat) (pos : Nat) : Nat :=
  d.getD pos 0 * 16777216 + d.getD (pos + 1) 0 * 65536 +
    d.getD (pos + 2) 0 * 256 + d.getD (pos + 3) 0

/-- The NAL-type extraction of `convert_to_annex_b`: the byte after the length
field when it exists (`pos + 4 < data.len()`), else 0; H264 keeps the low 5
bits, H265 bits 1-6. -/
def nalTypeAt (d : List Nat) (codec : CodecType) (pos : Nat) : Nat :=
  if pos + 4 < d.length then
    match codec with
    | .H264 => d.getD (pos + 4) 0 % 32
    | .H265 => d.getD (pos + 4) 0 / 2 % 64
  else
    0

/-- What one iteration of the `convert_to_annex_b` loop appends to `converted`:
nothing for a skippable NAL type, else the 4-byte start code followed by the
payload when the declared length fits the buffer (and by nothing when it
overruns). -/
def emitAt (d : List Nat) (codec : CodecType) (pos : Nat) : List Nat :=
  if codec.should_skip_nal (nalTypeAt d codec pos) then
    []
  else
    [0, 0, 0, 1] ++
      (if pos + 4 + readU32 d pos ≤ d.length then (d.drop (pos + 4)).take (readU32 d pos)
       else [])

/-- The `while pos < data.len()` loop of `convert_to_annex_b`, with explicit
fuel (each iteration advances the cursor by at least 4, so fuel
`data.len() + 1` is never exhausted; `convertLoop_fuel` below proves the
result does not depend on fuel past the remaining length). -/
def convertLoop (d : List Nat) (codec : CodecType) : Nat → Nat → List Nat
  | 0, _ => []
  | fuel + 1, pos =>
    if pos < d.length then
      if pos + 4 ≤ d.length then
        if pos + 4 + readU32 d pos ≤ d.length then
          emitAt d codec pos ++ convertLoop d codec fuel (pos + 4 + readU32 d pos)
        else
          emitAt d codec pos
      else
        []
    else
      []

/-- `convert_to_annex_b`. -/
def convert_to_annex_b (data : List Nat) (codec : CodecType) : List Nat :=
  convertLoop data codec (data.length + 1) 0

def U64MAX : Nat := 2 ^ 64 - 1

/-- The state of `VideoConverter` (the ffmpeg decoder handle and the time base
are external collaborators not touched by the modelled operations). -/
structure VideoConverter where
  codec_type : CodecType
  parameter_sets : ParameterSets
  frame_packets : List (List Nat)
  last_timestamp : Nat
  last_progress : Nat
deriving DecidableEq, Repr

/-- The field initialisation of `VideoConverter::new`: empty accumulation
buffer, `last_timestamp = u64::MAX` (the "none yet" sentinel),
`last_progress = 0`. -/
def initState (codec : CodecType) (ps : ParameterSets) : VideoConverter :=
  ⟨codec, ps, [], U64MAX, 0⟩

/-- One coded packet as `process_packet` reads it: `packet.data()`,
`packet.pts()`, `packet.dts()`, `packet.is_key()`. -/
structure Packet where
  data : Option (List Nat)
  pts : Option Int
  dts : Option Int
  is_key : Bool
deriving DecidableEq, Repr

/-- The reordering error message built by `VideoConverter::process_packet`. -/
def reorder_msg (pts dts : Int) (codec : CodecType) : String :=
  "This video contains B-frames or reordered frames (PTS=" ++ toString pts ++
    ", DTS=" ++ toString dts ++
    "). Please re-encode the video without B-frames using: ffmpeg -i <input> -c:v " ++
    codec.encoder_lib ++ " -bf 0 output.mp4"

/-- `VideoConverter::process_packet`. -/
def process_packet (st : VideoConverter) (packet : Packet) (is_first : Bool) :
    Except String Unit × VideoConverter :=
  match packet.data with
  | none => (.ok (), st)
  | some data =>
    if data.isEmpty then
      (.ok (), st)
    else
      match packet.pts with
      | none => (.error "Missing PTS", st)
      | some pts =>
        match packet.dts with
        | none => (.error "Missing DTS", st)
        | some dts =>
          if pts ≠ dts then
            (.error (reorder_msg pts dts st.codec_type), st)
          else
            let converted := convert_to_annex_b data st.codec_type
            let entry :=
              if is_first || packet.is_key then
                st.parameter_sets.write_to st.codec_type ++ converted
              else
                converted
            (.ok (), { st with frame_packets := st.frame_packets ++ [entry] })

/-- The non-monotonic timestamp error message of
`VideoConverter::check_timestamp`. -/
def nonmono_msg (ts last : Nat) : String :=
  "Non-monotonic or duplicate timestamp detected! Current: " ++ toString ts ++
    "ns, Last: " ++ toString last ++ "ns"

/-- `VideoConverter::check_timestamp`. -/
def check_timestamp (st : VideoConverter) (timestamp_ns : Nat) :
    Except String Unit × VideoConverter :=
  if timestamp_ns ≤ st.last_timestamp ∧ st.last_timestamp ≠ U64MAX then
    (.error (nonmono_msg timestamp_ns st.last_timestamp), st)
  else
    (.ok (), { st with last_timestamp := timestamp_ns })

/-- `VideoConverter::update_progress` (`self.last_progress + 1_000_000_000` is
u64 addition, hence the explicit wrap modulo `2^64`). -/
def update_progress (st : VideoConverter) (timestamp_ns : Nat) :
    Bool × VideoConverter :=
  if timestamp_ns ≥ (st.last_progress + 1000000000) % 2 ^ 64 then
    (true, { st with last_progress := timestamp_ns })
  else
    (false, st)

/-! ## Helper lemmas -/

lemma convertLoop_oob (d : List Nat) (codec : CodecType) (pos : Nat)
    (h : ¬ pos < d.length) : ∀ f, convertLoop d codec f pos = [] := by
  intro f
  cases f with
  | zero => rfl
  | succ f => simp [convertLoop, h]

lemma convertLoop_fuel (d : List Nat) (codec : CodecType) :
    ∀ f g pos, d.length ≤ pos + f → d.length ≤ pos + g →
      convertLoop d codec f pos = convertLoop d codec g pos := by
  intro f
  induction f with
  | zero =>
    intro g pos hf _
    have h : ¬ pos < d.length := by omega
    rw [convertLoop_oob d codec pos h 0, convertLoop_oob d codec pos h g]
  | succ f ih =>
    intro g pos hf hg
    by_cases h : pos < d.length
    · obtain ⟨g', rfl⟩ : ∃ g', g = g' + 1 := by
        cases g with
        | zero => omega
        | succ g' => exact ⟨g', rfl⟩
      simp only [convertLoop, h, if_true]
      by_cases h4 : pos + 4 ≤ d.length
      · simp only [h4, if_true]
        by_cases hin : pos + 4 + readU32 d pos ≤ d.length
        · simp only [hin, if_true]
          rw [ih g' (pos + 4 + readU32 d pos) (by omega) (by omega)]
        · simp [hin]
      · simp [h4]
    · rw [convertLoop_oob d codec pos h (f + 1), convertLoop_oob d codec pos h g]

/-! ## Claim theorems -/

/-- C5: converting the length-prefixed input
`[00 00 00 05, 01 02 03 04 05, 00 00 00 03, 07 08 09]` under the H264 profile
yields exactly the 4-byte start code `00 00 00 01` followed by
`01 02 03 04 05` (9 bytes): the second record, NAL type 7 (SPS), is elided
entirely and kept records appear in input order. -/
theorem c5_convert_vector :
    convert_to_annex_b [0x00, 0x00, 0x00, 0x05, 0x01, 0x02, 0x03, 0x04, 0x05,
        0x00, 0x00, 0x00, 0x03, 0x07, 0x08, 0x09] CodecType.H264 =
      [0x00, 0x00, 0x00, 0x01, 0x01, 0x02, 0x03, 0x04, 0x05] := by
  decide

/-- C6: parsing the AVC configuration record
`[1,0,0,0,0, 1, 0,5, 0x67,0x42,0x00,0x0A,0x00, 1, 0,3, 0x68,0xCE,0x38]` under
the H264 profile succeeds with an empty vps, an sps equal to the 4-byte start
code followed by the 5 SPS payload bytes, and a pps equal to the start code
followed by the 3 PPS payload bytes. -/
theorem c6_parse_avcc_vector :
    ParameterSets.parse
        [1, 0, 0, 0, 0, 1, 0, 5, 0x67, 0x42, 0x00, 0x0A, 0x00, 1, 0, 3,
          0x68, 0xCE, 0x38] CodecType.H264 =
      .ok ⟨[], [0, 0, 0, 1, 0x67, 0x42, 0x00, 0x0A, 0x00],
        [0, 0, 0, 1, 0x68, 0xCE, 0x38]⟩ := by
  rfl

/-- C1 (counterexample): on input `[00 00 00 05, 01]` under H264 the declared
length 5 exceeds the 1 byte remaining after the length field, yet the converter
emits a 4-byte start code — the output is not the conversion of the fully
in-bounds prefix of records (which is empty). -/
theorem c1_counterexample :
    convert_to_annex_b [0x00, 0x00, 0x00, 0x05, 0x01] CodecType.H264 =
        [0x00, 0x00, 0x00, 0x01] ∧
      convert_to_annex_b [0x00, 0x00, 0x00, 0x05, 0x01] CodecType.H264 ≠
        convert_to_annex_b [] CodecType.H264 := by
  decide

/-- C1 (amended): when a record's declared 4-byte big-endian length exceeds the
bytes remaining after the length field, the converter stops scanning there and
emits no payload bytes for that record, but it does emit the 4-byte start code
when the record's NAL type is not skippable (and nothing when it is): the
output of the loop from that position is exactly that optional start code. -/
theorem c1_overrun_stops_after_start_code (d : List Nat) (codec : CodecType)
    (pos f : Nat) (h4 : pos + 4 ≤ d.length)
    (hover : d.length < pos + 4 + readU32 d pos) :
    convertLoop d codec (f + 1) pos =
      if codec.should_skip_nal (nalTypeAt d codec pos) then [] else [0, 0, 0, 1] := by
  have hlt : pos < d.length := by omega
  have hnot : ¬ pos + 4 + readU32 d pos ≤ d.length := by omega
  simp only [convertLoop, hlt, if_true, h4, hnot, if_false, emitAt]
  split
  · rfl
  · simp [hnot]

/-- C1 (witness): the amended theorem at the concrete overrunning input
`[00 00 00 05, 01]`, position 0, fuel 6 (the fuel `convert_to_annex_b` uses). -/
theorem c1_witness :
    convertLoop [0x00, 0x00, 0x00, 0x05, 0x01] CodecType.H264 6 0 =
      if CodecType.H264.should_skip_nal
          (nalTypeAt [0x00, 0x00, 0x00, 0x05, 0x01] CodecType.H264 0) then []
      else [0, 0, 0, 1] :=
  c1_overrun_stops_after_start_code [0x00, 0x00, 0x00, 0x05, 0x01] CodecType.H264
    0 5 (by decide) (by decide)

/-- C2 (counterexample): an HEVC configuration record carrying one SPS array
and one PPS array but no VPS array — `parse_hvcc` succeeds and returns an
empty `vps` buffer, so the parse operation does not fail on an empty vps. -/
theorem c2_counterexample :
    parse_hvcc (List.replicate 22 0 ++ [2, 33, 0, 1, 0, 1, 0x42, 34, 0, 1, 0, 1, 0x44]) =
      .ok ⟨[], [0, 0, 0, 1, 0x42], [0, 0, 0, 1, 0x44]⟩ := by
  rfl

/-- C2 (amended): `parse_hvcc` itself enforces only that `sps` and `pps` are
non-empty; the empty-vps failure for the H265 profile is enforced by the
separate `validate` operation, which succeeds exactly when `sps`, `pps` and
`vps` are all non-empty. -/
theorem c2_vps_checked_by_validate (ps : ParameterSets) :
    (ps.validate CodecType.H265 = .ok () ↔
        ps.sps ≠ [] ∧ ps.pps ≠ [] ∧ ps.vps ≠ []) ∧
      (∀ d, parse_hvcc d = .ok ps → ps.sps ≠ [] ∧ ps.pps ≠ []) := by
  constructor
  · obtain ⟨v, s, p⟩ := ps
    cases s <;> cases p <;> cases v <;> simp [ParameterSets.validate]
  · intro d h
    by_cases hlen : d.length < HVCC_HEADER_SIZE + 1
    · simp [parse_hvcc, hlen] at h
    · rw [parse_hvcc] at h
      simp only [hlen, if_false] at h
      by_cases hemp :
          ((hvccArrays d (d.getD HVCC_HEADER_SIZE 0) (HVCC_HEADER_SIZE + 1) [] [] []).2.1.isEmpty ||
            (hvccArrays d (d.getD HVCC_HEADER_SIZE 0) (HVCC_HEADER_SIZE + 1) [] [] []).2.2.isEmpty) = true
      · rw [if_pos hemp] at h
        exact absurd h (by simp)
      · rw [if_neg hemp] at h
        cases h
        simp only [Bool.or_eq_true, List.isEmpty_iff, not_or] at hemp
        exact ⟨hemp.1, hemp.2⟩

/-- C3 (counterexample): a packet with an empty payload whose PTS (1) differs
from its DTS (0) is processed successfully — no reordering error is raised and
the frame accumulation buffer is unchanged — so not *every* access unit with
PTS ≠ DTS makes processing fail. -/
theorem c3_counterexample :
    (1 : Int) ≠ 0 ∧
      process_packet (initState CodecType.H264 ⟨[], [1], [2]⟩)
          ⟨some [], some 1, some 0, false⟩ true =
        (.ok (), initState CodecType.H264 ⟨[], [1], [2]⟩) := by
  constructor
  · decide
  · rfl

/-- C3 (amended): for every access unit with a *non-empty* payload whose PTS
and DTS are both present and differ, processing fails with the reordering
error carrying both timestamp values, and the converter state — in particular
the frame accumulation buffer — is returned unchanged, so no entry is appended
and no frame is emitted for that packet. -/
theorem c3_reorder_rejected (st : VideoConverter) (packet : Packet)
    (is_first : Bool) (l : List Nat) (p d : Int) (hdata : packet.data = some l)
    (hne : l ≠ []) (hpts : packet.pts = some p) (hdts : packet.dts = some d)
    (hpd : p ≠ d) :
    process_packet st packet is_first = (.error (reorder_msg p d st.codec_type), st) := by
  obtain ⟨data, pts, dts, key⟩ := packet
  cases hdata
  cases hpts
  cases hdts
  simp [process_packet, hne, hpd]

/-- C3 (witness): the amended theorem at a concrete one-byte packet with
PTS = 1, DTS = 0 under the H264 profile. -/
theorem c3_witness :
    process_packet (initState CodecType.H264 ⟨[], [1], [2]⟩)
        ⟨some [9], some 1, some 0, false⟩ true =
      (.error (reorder_msg 1 0 CodecType.H264),
        initState CodecType.H264 ⟨[], [1], [2]⟩) :=
  c3_reorder_rejected (initState CodecType.H264 ⟨[], [1], [2]⟩)
    ⟨some [9], some 1, some 0, false⟩ true [9] 1 0 rfl (by decide) rfl rfl (by decide)

/-- C4: `check_timestamp` fails exactly when the new timestamp is at most the
stored last timestamp and that stored value is not the `u64::MAX` "none yet"
sentinel; on success the stored value becomes the new timestamp, on failure
the state is unchanged; and from the freshly constructed state the first
checked timestamp never fails, whatever its value. -/
theorem c4_check_timestamp_spec (st : VideoConverter) (ts : Nat)
    (c : CodecType) (ps : ParameterSets) :
    ((check_timestamp st ts).1 = .ok () ↔
        ¬(ts ≤ st.last_timestamp ∧ st.last_timestamp ≠ U64MAX)) ∧
      ((check_timestamp st ts).1 = .ok () →
        (check_timestamp st ts).2 = { st with last_timestamp := ts }) ∧
      ((check_timestamp st ts).1 ≠ .ok () → (check_timestamp st ts).2 = st) ∧
      (check_timestamp (initState c ps) ts).1 = .ok () := by
  refine ⟨?_, ?_, ?_, ?_⟩ <;>
    first
    | · by_cases h : ts ≤ st.last_timestamp ∧ st.last_timestamp ≠ U64MAX <;>
          simp [check_timestamp, h]
    | · simp [check_timestamp, initState]

/-- C9 (counterexample): from the fresh state, checking u64::MAX succeeds and
the immediately following check at 5 also succeeds (the sentinel aliased), but
the call after that, at 3, fails — so it is not true that after one successful
check at u64::MAX no later call can ever fail. -/
theorem c9_counterexample :
    (check_timestamp (initState CodecType.H264 ⟨[], [1], [2]⟩) U64MAX).1 = .ok () ∧
      (check_timestamp
          (check_timestamp (initState CodecType.H264 ⟨[], [1], [2]⟩) U64MAX).2 5).1 =
        .ok () ∧
      (check_timestamp
          (check_timestamp
            (check_timestamp (initState CodecType.H264 ⟨[], [1], [2]⟩) U64MAX).2 5).2
          3).1 = .error (nonmono_msg 3 5) := by
  exact ⟨rfl, rfl, rfl⟩

/-- C9 (amended): the sentinel aliases a legitimate timestamp value: any state
whose stored last timestamp equals u64::MAX accepts every timestamp, and a
successful check at u64::MAX itself stores u64::MAX again, so the immediately
following check also succeeds whatever its value; later calls, however, can
fail again once a non-sentinel timestamp has been accepted. -/
theorem c9_sentinel_aliasing (st : VideoConverter) (ts ts2 : Nat)
    (h : st.last_timestamp = U64MAX) :
    (check_timestamp st ts).1 = .ok () ∧
      (check_timestamp st U64MAX).2.last_timestamp = U64MAX ∧
      (check_timestamp (check_timestamp st U64MAX).2 ts2).1 = .ok () := by
  refine ⟨by simp [check_timestamp, h], ?_, ?_⟩ <;>
    simp [check_timestamp, h]

/-- C9 (witness): the amended theorem at the fresh H265 state (whose stored
last timestamp is the sentinel) with follow-up timestamps 3 and 7. -/
theorem c9_witness :
    (check_timestamp (initState CodecType.H265 ⟨[1], [1], [1]⟩) 3).1 = .ok () ∧
      (check_timestamp (initState CodecType.H265 ⟨[1], [1], [1]⟩) U64MAX).2.last_timestamp =
        U64MAX ∧
      (check_timestamp
          (check_timestamp (initState CodecType.H265 ⟨[1], [1], [1]⟩) U64MAX).2 7).1 =
        .ok () :=
  c9_sentinel_aliasing (initState CodecType.H265 ⟨[1], [1], [1]⟩) 3 7 rfl

/-- C8 (counterexample): after the reachable call that stores u64::MAX as the
progress tick, a further call at u64::MAX returns true (the u64 addition
`last_progress + 1_000_000_000` wraps) even though the timestamp is *not* at
least the stored tick plus 1_000_000_000 — refuting the claimed
if-and-only-if condition. -/
theorem c8_counterexample :
    (update_progress
        (update_progress (initState CodecType.H264 ⟨[], [1], [2]⟩) U64MAX).2
        U64MAX).1 = true ∧
      ¬(U64MAX ≥
        (update_progress (initState CodecType.H264 ⟨[], [1], [2]⟩) U64MAX).2.last_progress +
          1000000000) := by
  constructor
  · rfl
  · decide

/-- C8 (amended): `update_progress` returns true and stores the given
timestamp iff the timestamp is at least `(stored tick + 1_000_000_000) mod
2^64` (the source adds in u64, which wraps; whenever
`stored tick + 1_000_000_000 < 2^64` this is exactly the claimed condition),
and otherwise returns false without mutating the state; from the initial tick
0, the timestamps 0, 1_000_000_000, 1_500_000_000, 2_000_000_000 yield the
boolean sequence false, true, false, true. -/
theorem c8_update_progress_spec (st : VideoConverter) (ts : Nat) :
    ((update_progress st ts).1 = true ↔
        ts ≥ (st.last_progress + 1000000000) % 2 ^ 64) ∧
      ((update_progress st ts).1 = true →
        (update_progress st ts).2 = { st with last_progress := ts }) ∧
      ((update_progress st ts).1 = false → (update_progress st ts).2 = st) ∧
      (st.last_progress + 1000000000 < 2 ^ 64 →
        ((update_progress st ts).1 = true ↔ ts ≥ st.last_progress + 1000000000)) ∧
      ((update_progress (initState CodecType.H264 ⟨[], [1], [2]⟩) 0).1 = false ∧
        (update_progress
            (update_progress (initState CodecType.H264 ⟨[], [1], [2]⟩) 0).2
            1000000000).1 = true ∧
        (update_progress
            (update_progress
              (update_progress (initState CodecType.H264 ⟨[], [1], [2]⟩) 0).2
              1000000000).2
            1500000000).1 = false ∧
        (update_progress
            (update_progress
              (update_progress
                (update_progress (initState CodecType.H264 ⟨[], [1], [2]⟩) 0).2
                1000000000).2
              1500000000).2
            2000000000).1 = true) := by
  have hmain :
      ((update_progress st ts).1 = true ↔
          ts ≥ (st.last_progress + 1000000000) % 2 ^ 64) ∧
        ((update_progress st ts).1 = true →
          (update_progress st ts).2 = { st with last_progress := ts }) ∧
        ((update_progress st ts).1 = false → (update_progress st ts).2 = st) := by
    unfold update_progress
    by_cases h : ts ≥ (st.last_progress + 1000000000) % 2 ^ 64
    · rw [if_pos h]
      exact ⟨⟨fun _ => h, fun _ => rfl⟩, fun _ => rfl, fun hf => by simp at hf⟩
    · rw [if_neg h]
      exact ⟨⟨fun hf => by simp at hf, fun hc => absurd hc h⟩,
        fun hf => by simp at hf, fun _ => rfl⟩
  refine ⟨hmain.1, hmain.2.1, hmain.2.2, ?_, rfl, rfl, rfl, rfl⟩
  intro hlt
  rw [hmain.1, Nat.mod_eq_of_lt hlt]

/-- C7: the bounds policy of the two parse paths is asymmetric: in the H264
path every read past the input length fails the whole parse with the
descriptive error for that read (a truncated 2-byte length field or a payload
overrun), whereas in the H265 path the same conditions merely break out of the
enumeration, returning the parameter sets accumulated so far, and `parse_hvcc`
as a whole can only fail with the too-short-header or the
missing-parameter-sets error — never because of a truncated array or entry. -/
theorem c7_bounds_asymmetry (d : List Nat) :
    (∀ eL eT : String, ∀ n offset : Nat, ∀ acc : List Nat,
      offset + 2 > d.length → avccEntries d eL eT (n + 1) offset acc = .error eL) ∧
      (∀ eL eT : String, ∀ n offset : Nat, ∀ acc : List Nat,
        offset + 2 ≤ d.length →
        d.length < offset + 2 + (d.getD offset 0 * 256 + d.getD (offset + 1) 0) →
        avccEntries d eL eT (n + 1) offset acc = .error eT) ∧
      (∀ t n offset : Nat, ∀ vps sps pps : List Nat,
        offset + 2 > d.length →
        hvccInner d t (n + 1) offset vps sps pps = (offset, vps, sps, pps)) ∧
      (∀ t n offset : Nat, ∀ vps sps pps : List Nat,
        offset + 2 ≤ d.length →
        d.length < offset + 2 + (d.getD offset 0 * 256 + d.getD (offset + 1) 0) →
        hvccInner d t (n + 1) offset vps sps pps = (offset + 2, vps, sps, pps)) ∧
      (∀ e : String, parse_hvcc d = .error e →
        e = "HVCC header too short" ∨ e = "Missing required HEVC parameter sets") := by
  refine ⟨?_, ?_, ?_, ?_, ?_⟩
  · intro eL eT n offset acc h
    simp [avccEntries, h]
  · intro eL eT n offset acc h hover
    have h2 : ¬ offset + 2 > d.length := by omega
    have h3 : offset + 2 + (d.getD offset 0 * 256 + d.getD (offset + 1) 0) > d.length := by
      omega
    unfold avccEntries
    rw [if_neg h2]
    dsimp only
    rw [if_pos h3]
  · intro t n offset vps sps pps h
    simp [hvccInner, h]
  · intro t n offset vps sps pps h hover
    have h2 : ¬ offset + 2 > d.length := by omega
    have h3 : offset + 2 + (d.getD offset 0 * 256 + d.getD (offset + 1) 0) > d.length := by
      omega
    unfold hvccInner
    rw [if_neg h2]
    dsimp only
    rw [if_pos h3]
  · intro e h
    by_cases hlen : d.length < HVCC_HEADER_SIZE + 1
    · left
      rw [parse_hvcc, if_pos hlen] at h
      exact (Except.error.injEq _ _ ▸ h).symm
    · right
      rw [parse_hvcc, if_neg hlen] at h
      by_cases hemp :
          ((hvccArrays d (d.getD HVCC_HEADER_SIZE 0) (HVCC_HEADER_SIZE + 1) [] [] []).2.1.isEmpty ||
            (hvccArrays d (d.getD HVCC_HEADER_SIZE 0) (HVCC_HEADER_SIZE + 1) [] [] []).2.2.isEmpty) = true
      · rw [if_pos hemp] at h
        exact (Except.error.injEq _ _ ▸ h).symm
      · rw [if_neg hemp] at h
        exact absurd h (by simp)

/-- C7 (witness): the asymmetry at a concrete truncated input: the same
out-of-bounds length read at offset 23 of a 24-byte buffer makes the H264
entry loop fail with its descriptive error while the H265 entry loop returns
the already-accumulated sets unchanged, and `parse_hvcc` on the 24-byte buffer
fails only with the missing-parameter-sets error. -/
theorem c7_witness :
    avccEntries (List.replicate 24 0) "Invalid SPS length" "SPS data truncated" 1 23 [] =
        .error "Invalid SPS length" ∧
      hvccInner (List.replicate 24 0) 33 1 23 [] [0, 0, 0, 1, 9] [] =
        (23, [], [0, 0, 0, 1, 9], []) ∧
      ("Missing required HEVC parameter sets" = "HVCC header too short" ∨
        "Missing required HEVC parameter sets" = "Missing required HEVC parameter sets") :=
  ⟨(c7_bounds_asymmetry (List.replicate 24 0)).1 "Invalid SPS length" "SPS data truncated"
      0 23 [] (by decide),
    (c7_bounds_asymmetry (List.replicate 24 0)).2.2.1 33 0 23 [] [0, 0, 0, 1, 9] []
      (by decide),
    (c7_bounds_asymmetry (List.replicate 24 0)).2.2.2.2 "Missing required HEVC parameter sets"
      (by rfl)⟩

/-- C10: the Annex-B converter is total and terminating on every input byte
sequence and profile: every continuing loop iteration advances the scan cursor
from `pos` to `pos + 4 + length`, an increase of at least 4, staying within
the buffer, so the scan finishes within `data.length` steps — formally, any
fuel of at least the buffer length (in particular the `data.length + 1` that
`convert_to_annex_b` supplies) yields the same, well-defined result, and every
continuing iteration is the guarded step equation below. -/
theorem c10_converter_total (d : List Nat) (codec : CodecType) :
    (∀ f : Nat, d.length ≤ f → convertLoop d codec f 0 = convert_to_annex_b d codec) ∧
      (∀ pos f : Nat, pos + 4 ≤ d.length →
        pos + 4 ≤ pos + 4 + readU32 d pos ∧
          (pos + 4 + readU32 d pos ≤ d.length →
            convertLoop d codec (f + 1) pos =
              emitAt d codec pos ++ convertLoop d codec f (pos + 4 + readU32 d pos))) := by
  constructor
  · intro f hf
    exact convertLoop_fuel d codec f (d.length + 1) 0 (by omega) (by omega)
  · intro pos f h4
    refine ⟨by omega, fun hin => ?_⟩
    have hlt : pos < d.length := by omega
    simp only [convertLoop, hlt, if_true, h4, hin]

/-- C10 (witness): the theorem at the concrete input `[00 00 00 00]`, whose
single zero-length record makes the loop take its continuing branch, with
fuel 7 for the fuel-independence half and fuel 2 for the step equation. -/
theorem c10_witness :
    (convertLoop [0, 0, 0, 0] CodecType.H264 7 0 =
        convert_to_annex_b [0, 0, 0, 0] CodecType.H264) ∧
      ((0 : Nat) + 4 ≤ 0 + 4 + readU32 [0, 0, 0, 0] 0 ∧
        (0 + 4 + readU32 [0, 0, 0, 0] 0 ≤ [0, 0, 0, 0].length →
          convertLoop [0, 0, 0, 0] CodecType.H264 (1 + 1) 0 =
            emitAt [0, 0, 0, 0] CodecType.H264 0 ++
              convertLoop [0, 0, 0, 0] CodecType.H264 1
                (0 + 4 + readU32 [0, 0, 0, 0] 0))) :=
  ⟨(c10_converter_total [0, 0, 0, 0] CodecType.H264).1 7 (by decide),
    (c10_converter_total [0, 0, 0, 0] CodecType.H264).2 0 1 (by decide)⟩
